import Mathlib

/-!
Verification of the UCP prototype checkout system.

The definitions below are a shallow embedding of the TypeScript sources:

* `src/lib/ucp/checkoutStore.ts` — the in-memory checkout store
  (a JavaScript `Map<string, Checkout>` of immutable records; every
  mutation allocates a fresh object with spread syntax and rebinds the
  map key).  We model the JS heap explicitly: `StoreState.heap` is the
  list of all allocated `Checkout` objects in allocation order, and
  `StoreState.entries` is the map from checkout id to the heap index of
  its current object.  `nowIso()` and `randomId()` are impure; they are
  passed in as explicit `t` and `id` arguments.
* the Next.js route handlers (`POST /api/ucp/checkout`,
  `GET/PATCH /api/ucp/checkout/[id]`, `.../complete`, `.../cancel`,
  `POST /api/ucp/checkout-via-mcp`) — request handlers returning an
  HTTP status and a JSON body.
* the MCP gateway (`mcp/ucp-checkout-mcp.ts`, `mcp/ucp-checkout-mcp-http.ts`)
  — zod parameter schemas as decidable validity predicates, and the tool
  handlers as functions that run the upstream Resource API call; the MCP
  SDK validates a tool's zod schema before invoking its handler, which is
  embedded as the `if valid` guard around the handler body.
* the fetch-based MCP client (`src/lib/mcp-fetch-client.ts`) — the
  line translation it performs and the profile constant it sends.
-/

namespace UCP

/-- `CheckoutStatus` from `checkoutStore.ts`: `"CREATED" | "COMPLETED" | "CANCELED"`. -/
inductive CheckoutStatus where
  | CREATED
  | COMPLETED
  | CANCELED
deriving DecidableEq

/-- `CartLine` from `checkoutStore.ts`.  `quantity` is a JS number;
we model it as a rational so that zero, negative and non-integer
quantities are all expressible. -/
structure CartLine where
  productId : String
  quantity : Rat
deriving DecidableEq

/-- `Checkout` from `checkoutStore.ts`. -/
structure Checkout where
  id : String
  status : CheckoutStatus
  lines : List CartLine
  createdAt : String
  updatedAt : String
deriving DecidableEq

/-- The store state: the JS `Map<string, Checkout>` together with the heap
of allocated `Checkout` objects.  `entries` maps a checkout id to the heap
index of its current object (a prepended pair shadows an older binding,
matching `Map.set`); `heap` records every object ever allocated, in
allocation order — JS object spread allocates, it never overwrites. -/
structure StoreState where
  entries : List (String × Nat)
  heap : List Checkout
deriving DecidableEq

/-- The store at process start: empty map, nothing allocated. -/
def StoreState.empty : StoreState := ⟨[], []⟩

/-- Dereference an id: `store.get(id)` — find the current binding and read
the object it points to. -/
def StoreState.lookup (s : StoreState) (id : String) : Option Checkout :=
  (s.entries.lookup id).bind fun r => s.heap[r]?

/-- `store.set(id, c)` where `c` is a freshly allocated object: append the
object to the heap and bind the id to its index. -/
def StoreState.set (s : StoreState) (id : String) (c : Checkout) : StoreState :=
  ⟨(id, s.heap.length) :: s.entries, s.heap ++ [c]⟩

/-- Well-formedness: every map binding points into the heap.  This holds
for every state reachable from `StoreState.empty`. -/
def StoreState.WF (s : StoreState) : Prop :=
  ∀ p ∈ s.entries, p.2 < s.heap.length

instance (s : StoreState) : Decidable s.WF := by
  unfold StoreState.WF
  infer_instance

/-- `createCheckout` from `checkoutStore.ts`: build a fresh `CREATED`
checkout (with `randomId()` result `id` and `nowIso()` result `t`),
insert it, return it. -/
def createCheckout (s : StoreState) (id t : String) (lines : List CartLine) :
    Checkout × StoreState :=
  let checkout : Checkout :=
    { id := id, status := .CREATED, lines := lines, createdAt := t, updatedAt := t }
  (checkout, s.set id checkout)

/-- `getCheckout` from `checkoutStore.ts`: `store.get(id) ?? null`. -/
def getCheckout (s : StoreState) (id : String) : Option Checkout :=
  s.lookup id

/-- `updateCheckout` from `checkoutStore.ts`: null when absent; returned
unchanged when not `CREATED` (immutable after completion/cancel);
otherwise replace `lines`, stamp `updatedAt := t`, rebind. -/
def updateCheckout (s : StoreState) (id : String) (lines : List CartLine) (t : String) :
    Option Checkout × StoreState :=
  match s.lookup id with
  | none => (none, s)
  | some existing =>
    if existing.status ≠ .CREATED then (some existing, s)
    else
      let updated : Checkout := { existing with lines := lines, updatedAt := t }
      (some updated, s.set id updated)

/-- `completeCheckout` from `checkoutStore.ts`. -/
def completeCheckout (s : StoreState) (id t : String) :
    Option Checkout × StoreState :=
  match s.lookup id with
  | none => (none, s)
  | some existing =>
    if existing.status ≠ .CREATED then (some existing, s)
    else
      let updated : Checkout := { existing with status := .COMPLETED, updatedAt := t }
      (some updated, s.set id updated)

/-- `cancelCheckout` from `checkoutStore.ts`. -/
def cancelCheckout (s : StoreState) (id t : String) :
    Option Checkout × StoreState :=
  match s.lookup id with
  | none => (none, s)
  | some existing =>
    if existing.status ≠ .CREATED then (some existing, s)
    else
      let updated : Checkout := { existing with status := .CANCELED, updatedAt := t }
      (some updated, s.set id updated)

theorem lookup_set_self (s : StoreState) (id : String) (c : Checkout) :
    (s.set id c).lookup id = some c := by
  simp [StoreState.set, StoreState.lookup, List.lookup]

theorem exists_mem_of_lookup_eq (l : List (String × Nat)) (a : String) (r : Nat)
    (h : List.lookup a l = some r) : ∃ k, (k, r) ∈ l := by
  induction l with
  | nil => simp [List.lookup] at h
  | cons p l ih =>
    obtain ⟨k, b⟩ := p
    rw [List.lookup] at h
    cases hb : a == k with
    | true =>
      rw [hb] at h
      simp only [Option.some.injEq] at h
      exact ⟨k, by simp [h]⟩
    | false =>
      rw [hb] at h
      obtain ⟨k', hk'⟩ := ih h
      exact ⟨k', List.mem_cons_of_mem _ hk'⟩

theorem lookup_set_ne (s : StoreState) (id id' : String) (c : Checkout)
    (hwf : s.WF) (h : id' ≠ id) :
    (s.set id c).lookup id' = s.lookup id' := by
  have hne : (id' == id) = false := beq_eq_false_iff_ne.mpr h
  simp only [StoreState.set, StoreState.lookup, List.lookup, hne]
  cases hr : s.entries.lookup id' with
  | none => rfl
  | some r =>
    obtain ⟨k, hmem⟩ := exists_mem_of_lookup_eq _ _ _ hr
    have hlt : r < s.heap.length := hwf _ hmem
    simp [List.getElem?_append, hlt]

theorem set_WF (s : StoreState) (id : String) (c : Checkout) (hwf : s.WF) :
    (s.set id c).WF := by
  intro p hp
  simp only [StoreState.set, List.mem_cons] at hp
  rcases hp with h | h
  · subst h
    simp [StoreState.set]
  · have := hwf _ h
    simp only [StoreState.set, List.length_append, List.length_cons, List.length_nil]
    omega

/-- A JSON body returned by a Next.js route handler: either a serialized
checkout or an `{error: ...}` object. -/
inductive ApiBody where
  | checkout (c : Checkout)
  | apiError (msg : String)
deriving DecidableEq

/-- An HTTP response from a route handler: status code plus JSON body. -/
structure ApiResponse where
  status : Nat
  body : ApiBody
deriving DecidableEq

/-- `POST /api/ucp/checkout` (`src/app/api/ucp/checkout/route.ts`):
reject a missing or empty `lines` array with 400, otherwise
`createCheckout` and answer 201.  `linesField` is the parsed `lines`
field of the JSON body (`none` when absent); `body.lines ?? []` is
`linesField.getD []`. -/
def postCheckout (s : StoreState) (id t : String) (linesField : Option (List CartLine)) :
    ApiResponse × StoreState :=
  let lines := linesField.getD []
  if lines.length = 0 then
    (⟨400, .apiError "lines is required and must be a non-empty array"⟩, s)
  else
    let (checkout, s') := createCheckout s id t lines
    (⟨201, .checkout checkout⟩, s')

/-- `GET /api/ucp/checkout/[id]` (`route.ts`): 404 when absent, else 200. -/
def getRoute (s : StoreState) (id : String) : ApiResponse :=
  match getCheckout s id with
  | none => ⟨404, .apiError "not found"⟩
  | some c => ⟨200, .checkout c⟩

/-- `PATCH /api/ucp/checkout/[id]` (`route.ts`): reject a missing or empty
`lines` array with 400, otherwise `updateCheckout`; 404 when the id is
unknown, else 200. -/
def patchCheckout (s : StoreState) (id t : String) (linesField : Option (List CartLine)) :
    ApiResponse × StoreState :=
  let lines := linesField.getD []
  if lines.length = 0 then
    (⟨400, .apiError "lines is required and must be a non-empty array"⟩, s)
  else
    match updateCheckout s id lines t with
    | (none, s') => (⟨404, .apiError "not found"⟩, s')
    | (some c, s') => (⟨200, .checkout c⟩, s')

/-- Render a `CheckoutStatus` the way the JSON serializer does. -/
def CheckoutStatus.name : CheckoutStatus → String
  | .CREATED => "CREATED"
  | .COMPLETED => "COMPLETED"
  | .CANCELED => "CANCELED"

/-- `POST /api/ucp/checkout/[id]/complete` (`complete/route.ts`): 400 on an
empty id, then `completeCheckout`; on `null` a 404 with a hint computed
from `getCheckout`. -/
def postComplete (s : StoreState) (id t : String) : ApiResponse × StoreState :=
  if id = "" then (⟨400, .apiError "missing checkout id"⟩, s)
  else
    match completeCheckout s id t with
    | (none, s') =>
      let hint :=
        match getCheckout s' id with
        | some existing => "checkout exists but status is " ++ existing.status.name
        | none => "checkout not in store (create and complete must hit the same app)"
      (⟨404, .apiError ("not found: " ++ hint)⟩, s')
    | (some c, s') => (⟨200, .checkout c⟩, s')

/-- `POST /api/ucp/checkout/[id]/cancel` (`cancel/route.ts`). -/
def postCancel (s : StoreState) (id t : String) : ApiResponse × StoreState :=
  match cancelCheckout s id t with
  | (none, s') => (⟨404, .apiError "not found"⟩, s')
  | (some c, s') => (⟨200, .checkout c⟩, s')

/-- `item: { id }` inside a gateway line item. -/
structure ItemRef where
  id : String
deriving DecidableEq

/-- `LineItem` zod shape of both MCP gateways:
`{ item: { id: string.min(1) }, quantity: number.int().positive() }`. -/
structure LineItem where
  item : ItemRef
  quantity : Rat
deriving DecidableEq

/-- The `ucp` object inside `_meta`: `{ profile: string.min(1) }`. -/
structure UcpScope where
  profile : String
deriving DecidableEq

/-- `MetaShape` of both MCP gateways: `_meta: { ucp: { profile } }`
(the `_meta` field is called `meta` here). -/
structure UcpMeta where
  ucp : UcpScope
deriving DecidableEq

/-- `CreateCheckoutParams` zod shape. -/
structure CreateCheckoutParams where
  meta : UcpMeta
  idempotency_key : Option String
  currency : Option String
  line_items : List LineItem
deriving DecidableEq

/-- `IdParams` zod shape. -/
structure IdParams where
  meta : UcpMeta
  id : String
deriving DecidableEq

/-- `UpdateCheckoutParams` zod shape. -/
structure UpdateCheckoutParams where
  meta : UcpMeta
  id : String
  line_items : List LineItem
deriving DecidableEq

/-- zod acceptance of one line item: `item.id` non-empty,
`quantity` an integer and strictly positive. -/
def LineItem.valid (li : LineItem) : Prop :=
  1 ≤ li.item.id.length ∧ li.quantity.isInt = true ∧ 0 < li.quantity

instance (li : LineItem) : Decidable li.valid := by
  unfold LineItem.valid
  infer_instance

/-- zod acceptance of `MetaShape`: the profile string is non-empty.
This is the entire profile check the gateways perform. -/
def UcpMeta.valid (m : UcpMeta) : Prop :=
  1 ≤ m.ucp.profile.length

instance (m : UcpMeta) : Decidable m.valid := by
  unfold UcpMeta.valid
  infer_instance

/-- zod acceptance of `CreateCheckoutParams`: valid meta, at least one
line item, every line item valid.  `idempotency_key` and `currency` are
optional and unconstrained. -/
def CreateCheckoutParams.valid (p : CreateCheckoutParams) : Prop :=
  p.meta.valid ∧ 1 ≤ p.line_items.length ∧ ∀ li ∈ p.line_items, li.valid

instance (p : CreateCheckoutParams) : Decidable p.valid := by
  unfold CreateCheckoutParams.valid
  infer_instance

/-- zod acceptance of `IdParams`. -/
def IdParams.valid (p : IdParams) : Prop :=
  p.meta.valid ∧ 1 ≤ p.id.length

instance (p : IdParams) : Decidable p.valid := by
  unfold IdParams.valid
  infer_instance

/-- zod acceptance of `UpdateCheckoutParams`. -/
def UpdateCheckoutParams.valid (p : UpdateCheckoutParams) : Prop :=
  p.meta.valid ∧ 1 ≤ p.id.length ∧ 1 ≤ p.line_items.length ∧ ∀ li ∈ p.line_items, li.valid

instance (p : UpdateCheckoutParams) : Decidable p.valid := by
  unfold UpdateCheckoutParams.valid
  infer_instance

/-- `toLines` from `mcp/ucp-checkout-mcp-http.ts`: wire line items to
Resource API cart lines. -/
def toLines (line_items : List LineItem) : List CartLine :=
  line_items.map fun li => { productId := li.item.id, quantity := li.quantity }

/-- `toRestLines` from `mcp/ucp-checkout-mcp.ts` (same translation as
`toLines`, in the stdio gateway). -/
def toRestLines (line_items : List LineItem) : List CartLine :=
  line_items.map fun li => { productId := li.item.id, quantity := li.quantity }

/-- The UCP-shaped checkout produced by the stdio gateway's output
translation. -/
structure UcpCheckout where
  id : String
  status : CheckoutStatus
  line_items : List LineItem
  createdAt : String
  updatedAt : String
deriving DecidableEq

/-- `toUcpCheckout` from `mcp/ucp-checkout-mcp.ts`: REST checkout to the
nested `line_items` wire shape. -/
def toUcpCheckout (rest : Checkout) : UcpCheckout :=
  { id := rest.id
    status := rest.status
    line_items := rest.lines.map fun l => { item := { id := l.productId }, quantity := l.quantity }
    createdAt := rest.createdAt
    updatedAt := rest.updatedAt }

/-- The line translation done inside `createCheckoutViaMcp`
(`src/lib/mcp-fetch-client.ts`): cart lines to wire line items. -/
def clientLineItems (lines : List CartLine) : List LineItem :=
  lines.map fun l => { item := { id := l.productId }, quantity := l.quantity }

/-- `UCP_PROFILE` from `src/lib/mcp-fetch-client.ts`. -/
def UCP_PROFILE : String := "ucp.checkout.v1"

/-- Outcome of one MCP tool invocation as seen by the caller. -/
inductive ToolOutcome where
  | ok (c : Checkout)
  | invalidInput
  | upstreamError (status : Nat) (msg : String)
deriving DecidableEq

/-- The `create_checkout` tool of the HTTP gateway
(`mcp/ucp-checkout-mcp-http.ts`).  The MCP SDK validates the zod params
before running the handler, so an invalid call never reaches the
handler; the handler issues exactly one upstream `POST /api/ucp/checkout`
with `toLines(p.line_items)` and fails (`assertOk`) on a non-2xx
status.  The middle component counts upstream Resource API requests. -/
def createCheckoutTool (s : StoreState) (id t : String) (p : CreateCheckoutParams) :
    ToolOutcome × Nat × StoreState :=
  if p.valid then
    let (resp, s') := postCheckout s id t (some (toLines p.line_items))
    match resp.body with
    | .checkout c => (.ok c, 1, s')
    | .apiError m => (.upstreamError resp.status m, 1, s')
  else (.invalidInput, 0, s)

/-- The `update_checkout` tool of the HTTP gateway: one upstream
`PATCH /api/ucp/checkout/{id}` after zod validation. -/
def updateCheckoutTool (s : StoreState) (t : String) (p : UpdateCheckoutParams) :
    ToolOutcome × Nat × StoreState :=
  if p.valid then
    let (resp, s') := patchCheckout s p.id t (some (toLines p.line_items))
    match resp.body with
    | .checkout c => (.ok c, 1, s')
    | .apiError m => (.upstreamError resp.status m, 1, s')
  else (.invalidInput, 0, s)

/-- The whole tool-invocation create path of `createCheckoutViaMcp`
(`src/lib/mcp-fetch-client.ts`): after the `initialize` handshake (which
carries no checkout data), the client sends `create_checkout` with
profile `UCP_PROFILE` and `clientLineItems lines`, and the gateway
translates to the Resource API. -/
def createCheckoutViaMcpPath (s : StoreState) (id t : String) (lines : List CartLine) :
    ToolOutcome × Nat × StoreState :=
  createCheckoutTool s id t
    { meta := { ucp := { profile := UCP_PROFILE } }
      idempotency_key := none
      currency := none
      line_items := clientLineItems lines }

/-- `POST /api/ucp/checkout-via-mcp` (`checkout-via-mcp/route.ts`): after
the emptiness check, try `createCheckoutViaMcp` and on any thrown error
fall back to the direct `createCheckout`.  `mcpResult` is the outcome of
the MCP attempt (`Except.error` models any throw: unreachable gateway,
handshake failure, tool error, or malformed response). -/
def postCheckoutViaMcp (s : StoreState) (id t : String)
    (mcpResult : Except String Checkout) (linesField : Option (List CartLine)) :
    ApiResponse × StoreState :=
  let lines := linesField.getD []
  if lines.length = 0 then
    (⟨400, .apiError "lines is required and must be a non-empty array"⟩, s)
  else
    match mcpResult with
    | .ok c => (⟨201, .checkout c⟩, s)
    | .error _ =>
      let (checkout, s') := createCheckout s id t lines
      (⟨201, .checkout checkout⟩, s')

/-- `POST` of `src/app/api/ucp/checkout/[id]/complete-via-mcp`-style route
(the first handler in `src/unnamed/part_000`): try
`completeCheckoutViaMcp`, on any throw fall back to the direct
`completeCheckout`, answering 404 when the id is unknown. -/
def postCompleteViaMcp (s : StoreState) (id t : String)
    (mcpResult : Except String Checkout) : ApiResponse × StoreState :=
  match mcpResult with
  | .ok c => (⟨200, .checkout c⟩, s)
  | .error _ =>
    match completeCheckout s id t with
    | (none, s') =>
      (⟨404, .apiError "not found. If using MCP, ensure UCP_BASE_URL points to this app (e.g. http://127.0.0.1:3000)."⟩, s')
    | (some c, s') => (⟨200, .checkout c⟩, s')

/-- C4: for every line list L, `createCheckout` succeeds and returns a
checkout with status `CREATED`, lines L, the freshly assigned id and the
creation timestamp, and its only store effect is inserting that checkout
under that id (every other id reads as before). -/
theorem create_checkout_spec (s : StoreState) (id t : String) (L : List CartLine)
    (hwf : s.WF) :
    (createCheckout s id t L).1.status = .CREATED ∧
    (createCheckout s id t L).1.lines = L ∧
    (createCheckout s id t L).1.id = id ∧
    (createCheckout s id t L).1.createdAt = t ∧
    (createCheckout s id t L).1.updatedAt = t ∧
    (createCheckout s id t L).2.lookup id = some (createCheckout s id t L).1 ∧
    (∀ id', id' ≠ id → (createCheckout s id t L).2.lookup id' = s.lookup id') :=
  ⟨rfl, rfl, rfl, rfl, rfl, lookup_set_self _ _ _,
    fun _ h => lookup_set_ne _ _ _ _ hwf h⟩

theorem create_checkout_spec_witness :
    StoreState.empty.WF ∧
    ((createCheckout StoreState.empty "co_1" "t0" [⟨"p1", 2⟩]).1.status = .CREATED ∧
     (createCheckout StoreState.empty "co_1" "t0" [⟨"p1", 2⟩]).1.lines = [⟨"p1", 2⟩] ∧
     (createCheckout StoreState.empty "co_1" "t0" [⟨"p1", 2⟩]).2.lookup "co_1" =
       some (createCheckout StoreState.empty "co_1" "t0" [⟨"p1", 2⟩]).1) := by
  have h := create_checkout_spec StoreState.empty "co_1" "t0" [⟨"p1", 2⟩] (by decide)
  exact ⟨by decide, h.1, h.2.1, h.2.2.2.2.2.1⟩

/-- C5: for an id not present in the store, `getCheckout`,
`updateCheckout`, `completeCheckout` and `cancelCheckout` all return the
`null` sentinel (`none`) rather than failing, and leave the store
unchanged. -/
theorem missing_id_not_found (s : StoreState) (id t : String) (L : List CartLine)
    (h : s.lookup id = none) :
    getCheckout s id = none ∧
    updateCheckout s id L t = (none, s) ∧
    completeCheckout s id t = (none, s) ∧
    cancelCheckout s id t = (none, s) := by
  refine ⟨h, ?_, ?_, ?_⟩ <;>
    simp [updateCheckout, completeCheckout, cancelCheckout, h]

theorem missing_id_not_found_witness :
    StoreState.empty.lookup "zzz" = none ∧
    getCheckout StoreState.empty "zzz" = none ∧
    updateCheckout StoreState.empty "zzz" [⟨"p1", 2⟩] "t0" = (none, StoreState.empty) ∧
    completeCheckout StoreState.empty "zzz" "t0" = (none, StoreState.empty) ∧
    cancelCheckout StoreState.empty "zzz" "t0" = (none, StoreState.empty) := by
  have h := missing_id_not_found StoreState.empty "zzz" "t0" [⟨"p1", 2⟩] (by decide)
  exact ⟨by decide, h.1, h.2.1, h.2.2.1, h.2.2.2⟩

/-- C1: on a stored checkout whose status is terminal, `updateCheckout`
(with any line list), `completeCheckout` and `cancelCheckout` all return
the stored checkout itself — same status, lines and `updatedAt` — and
leave the store completely unchanged; in particular
`complete(complete(id).id) = complete(id)`. -/
theorem terminal_state_noop (s : StoreState) (id t t2 : String) (L : List CartLine)
    (c : Checkout) (h : s.lookup id = some c) (hterm : c.status ≠ .CREATED)
    (hid : c.id = id) :
    updateCheckout s id L t = (some c, s) ∧
    completeCheckout s id t = (some c, s) ∧
    cancelCheckout s id t = (some c, s) ∧
    completeCheckout (completeCheckout s id t).2 ((completeCheckout s id t).1.getD c).id t2
      = completeCheckout s id t := by
  have hu : updateCheckout s id L t = (some c, s) := by
    simp [updateCheckout, h, hterm]
  have hc : completeCheckout s id t = (some c, s) := by
    simp [completeCheckout, h, hterm]
  have hx : cancelCheckout s id t = (some c, s) := by
    simp [cancelCheckout, h, hterm]
  have hc2 : completeCheckout s id t2 = (some c, s) := by
    simp [completeCheckout, h, hterm]
  refine ⟨hu, hc, hx, ?_⟩
  rw [hc]
  simp only [Option.getD_some]
  rw [hid]
  exact hc2

/-- A store holding one already-completed checkout under id `co_1`. -/
def terminalStore : StoreState :=
  ⟨[("co_1", 0)], [⟨"co_1", .COMPLETED, [⟨"p1", 2⟩], "t0", "t1"⟩]⟩

theorem terminal_state_noop_witness :
    terminalStore.lookup "co_1" = some ⟨"co_1", .COMPLETED, [⟨"p1", 2⟩], "t0", "t1"⟩ ∧
    updateCheckout terminalStore "co_1" [⟨"p9", 7⟩] "t5" =
      (some ⟨"co_1", .COMPLETED, [⟨"p1", 2⟩], "t0", "t1"⟩, terminalStore) ∧
    completeCheckout terminalStore "co_1" "t5" =
      (some ⟨"co_1", .COMPLETED, [⟨"p1", 2⟩], "t0", "t1"⟩, terminalStore) ∧
    cancelCheckout terminalStore "co_1" "t5" =
      (some ⟨"co_1", .COMPLETED, [⟨"p1", 2⟩], "t0", "t1"⟩, terminalStore) := by
  have h := terminal_state_noop terminalStore "co_1" "t5" "t6" [⟨"p9", 7⟩]
    ⟨"co_1", .COMPLETED, [⟨"p1", 2⟩], "t0", "t1"⟩ (by decide) (by decide) rfl
  exact ⟨by decide, h.1, h.2.1, h.2.2.1⟩

/-- C10: a successful mutation changes only the fields it targets.
`updateCheckout` on a `CREATED` checkout replaces `lines` and stamps
`updatedAt`, keeping `id`, `status` and `createdAt`; `completeCheckout`
and `cancelCheckout` change only `status` and `updatedAt`, keeping `id`,
`lines` and `createdAt`. -/
theorem mutation_frame (s : StoreState) (id t : String) (L : List CartLine) (c : Checkout)
    (h : s.lookup id = some c) (hst : c.status = .CREATED) :
    (∃ u, updateCheckout s id L t = (some u, s.set id u) ∧
      u.id = c.id ∧ u.status = c.status ∧ u.createdAt = c.createdAt ∧
      u.lines = L ∧ u.updatedAt = t) ∧
    (∃ u, completeCheckout s id t = (some u, s.set id u) ∧
      u.id = c.id ∧ u.lines = c.lines ∧ u.createdAt = c.createdAt ∧
      u.status = .COMPLETED ∧ u.updatedAt = t) ∧
    (∃ u, cancelCheckout s id t = (some u, s.set id u) ∧
      u.id = c.id ∧ u.lines = c.lines ∧ u.createdAt = c.createdAt ∧
      u.status = .CANCELED ∧ u.updatedAt = t) := by
  refine
    ⟨⟨{ c with lines := L, updatedAt := t }, ?_, rfl, rfl, rfl, rfl, rfl⟩,
     ⟨{ c with status := .COMPLETED, updatedAt := t }, ?_, rfl, rfl, rfl, rfl, rfl⟩,
     ⟨{ c with status := .CANCELED, updatedAt := t }, ?_, rfl, rfl, rfl, rfl, rfl⟩⟩ <;>
    simp [updateCheckout, completeCheckout, cancelCheckout, h, hst]

/-- A store holding one `CREATED` checkout under id `co_1`. -/
def createdStore : StoreState :=
  ⟨[("co_1", 0)], [⟨"co_1", .CREATED, [⟨"p1", 2⟩], "t0", "t0"⟩]⟩

theorem mutation_frame_witness :
    createdStore.lookup "co_1" = some ⟨"co_1", .CREATED, [⟨"p1", 2⟩], "t0", "t0"⟩ ∧
    (∃ u, updateCheckout createdStore "co_1" [⟨"p9", 7⟩] "t5" =
      (some u, createdStore.set "co_1" u) ∧
      u.id = "co_1" ∧ u.status = .CREATED ∧ u.createdAt = "t0" ∧
      u.lines = [⟨"p9", 7⟩] ∧ u.updatedAt = "t5") := by
  have h := mutation_frame createdStore "co_1" "t5" [⟨"p9", 7⟩]
    ⟨"co_1", .CREATED, [⟨"p1", 2⟩], "t0", "t0"⟩ (by decide) rfl
  exact ⟨by decide, h.1⟩

/-- C9: no store operation ever mutates a previously returned checkout
object: every object already on the heap (a value some caller may hold a
reference to) reads back unchanged after `createCheckout`,
`updateCheckout`, `completeCheckout` or `cancelCheckout` — mutations
allocate fresh objects and rebind the id instead. -/
theorem returned_checkouts_immutable (s : StoreState) (id t : String) (L : List CartLine)
    (i : Nat) (hi : i < s.heap.length) :
    (createCheckout s id t L).2.heap[i]? = s.heap[i]? ∧
    (updateCheckout s id L t).2.heap[i]? = s.heap[i]? ∧
    (completeCheckout s id t).2.heap[i]? = s.heap[i]? ∧
    (cancelCheckout s id t).2.heap[i]? = s.heap[i]? := by
  have happ : ∀ c : Checkout, (s.heap ++ [c])[i]? = s.heap[i]? := by
    intro c
    simp [List.getElem?_append, hi]
  refine ⟨happ _, ?_, ?_, ?_⟩ <;> {
    rcases hlook : s.lookup id with _ | existing
    · simp [updateCheckout, completeCheckout, cancelCheckout, hlook]
    · by_cases hs : existing.status = CheckoutStatus.CREATED
      · simp only [updateCheckout, completeCheckout, cancelCheckout, hlook, hs]
        simp [StoreState.set, happ]
      · simp [updateCheckout, completeCheckout, cancelCheckout, hlook, hs]
  }

theorem returned_checkouts_immutable_witness :
    0 < createdStore.heap.length ∧
    (completeCheckout createdStore "co_1" "t5").2.heap[0]? = createdStore.heap[0]? := by
  have h := returned_checkouts_immutable createdStore "co_1" "t5" [⟨"p9", 7⟩] 0 (by decide)
  exact ⟨by decide, h.2.2.1⟩

/-- C2 (counterexample): the Resource API does not validate quantities.
`POST /api/ucp/checkout` with the single line `{productId: "p1",
quantity: 0}` answers 201 and stores the checkout, and a later `PATCH`
carrying quantity `-3` answers 200 — neither fails with InvalidInput. -/
theorem api_accepts_invalid_quantity :
    (postCheckout StoreState.empty "co_1" "t0" (some [⟨"p1", 0⟩])).1.status = 201 ∧
    (postCheckout StoreState.empty "co_1" "t0" (some [⟨"p1", 0⟩])).2.lookup "co_1" =
      some ⟨"co_1", .CREATED, [⟨"p1", 0⟩], "t0", "t0"⟩ ∧
    (patchCheckout (postCheckout StoreState.empty "co_1" "t0" (some [⟨"p1", 0⟩])).2
      "co_1" "t1" (some [⟨"p1", -3⟩])).1.status = 200 := by
  decide

/-- C2 (amended): at the Resource API boundary, create and update fail
with InvalidInput exactly when the supplied `lines` field is missing or
empty, and in that case the store is untouched; quantities are not
validated there. -/
theorem api_rejects_empty_lines (s s2 : StoreState) (id t idc t2 : String)
    (linesField : Option (List CartLine)) (h : (linesField.getD []).length = 0) :
    postCheckout s id t linesField =
      (⟨400, .apiError "lines is required and must be a non-empty array"⟩, s) ∧
    patchCheckout s2 idc t2 linesField =
      (⟨400, .apiError "lines is required and must be a non-empty array"⟩, s2) := by
  constructor <;> simp [postCheckout, patchCheckout, h]

theorem api_rejects_empty_lines_witness :
    ((some ([] : List CartLine)).getD []).length = 0 ∧
    postCheckout StoreState.empty "co_1" "t0" (some []) =
      (⟨400, .apiError "lines is required and must be a non-empty array"⟩, StoreState.empty) ∧
    patchCheckout createdStore "co_1" "t1" (some []) =
      (⟨400, .apiError "lines is required and must be a non-empty array"⟩, createdStore) := by
  have h := api_rejects_empty_lines StoreState.empty createdStore "co_1" "t0" "co_1" "t1"
    (some []) (by decide)
  exact ⟨by decide, h.1, h.2⟩

/-- C6: a `create_checkout` or `update_checkout` tool call whose
parameters fail the zod schema (empty `line_items`, a missing or empty
`item.id`, a non-positive or non-integer quantity, an invalid meta) is
rejected as InvalidInput by the gateway, with zero upstream Resource API
requests and the store untouched. -/
theorem gateway_rejects_invalid (s s2 : StoreState) (id t t2 : String)
    (p : CreateCheckoutParams) (q : UpdateCheckoutParams)
    (hp : ¬ p.valid) (hq : ¬ q.valid) :
    createCheckoutTool s id t p = (.invalidInput, 0, s) ∧
    updateCheckoutTool s2 t2 q = (.invalidInput, 0, s2) := by
  constructor
  · simp [createCheckoutTool, hp]
  · simp [updateCheckoutTool, hq]

/-- Create params whose single line item carries quantity `0`. -/
def zeroQuantityCreate : CreateCheckoutParams :=
  { meta := { ucp := { profile := "ucp.checkout.v1" } }
    idempotency_key := none
    currency := none
    line_items := [{ item := { id := "p1" }, quantity := 0 }] }

/-- Update params with an empty `line_items` list. -/
def emptyLinesUpdate : UpdateCheckoutParams :=
  { meta := { ucp := { profile := "ucp.checkout.v1" } }
    id := "co_1"
    line_items := [] }

theorem gateway_rejects_invalid_witness :
    ¬ zeroQuantityCreate.valid ∧ ¬ emptyLinesUpdate.valid ∧
    createCheckoutTool StoreState.empty "co_1" "t0" zeroQuantityCreate =
      (.invalidInput, 0, StoreState.empty) ∧
    updateCheckoutTool createdStore "t1" emptyLinesUpdate =
      (.invalidInput, 0, createdStore) := by
  have h := gateway_rejects_invalid StoreState.empty createdStore "co_1" "t0" "t1"
    zeroQuantityCreate emptyLinesUpdate (by decide) (by decide)
  exact ⟨by decide, by decide, h.1, h.2⟩

/-- C7 (counterexample): the gateway performs no recognition check on
the profile tag.  A `create_checkout` call whose profile is the
unrecognized string `"bogus.profile.v999"` is not failed with
UnsupportedProfile: it passes validation, makes the upstream request and
succeeds. -/
theorem unrecognized_profile_accepted :
    (createCheckoutTool StoreState.empty "co_1" "t0"
      { meta := { ucp := { profile := "bogus.profile.v999" } }
        idempotency_key := none
        currency := none
        line_items := [{ item := { id := "p1" }, quantity := 2 }] }).1 =
      .ok ⟨"co_1", .CREATED, [⟨"p1", 2⟩], "t0", "t0"⟩ ∧
    (createCheckoutTool StoreState.empty "co_1" "t0"
      { meta := { ucp := { profile := "bogus.profile.v999" } }
        idempotency_key := none
        currency := none
        line_items := [{ item := { id := "p1" }, quantity := 2 }] }).2.1 = 1 := by
  decide

/-- C7 (amended): the only profile validation the gateway performs is
non-emptiness.  A call with an empty profile tag fails as InvalidInput
with no upstream request, and any two non-empty profile tags —
recognized or not — produce identical behavior. -/
theorem profile_check_is_nonempty_only (s : StoreState) (id t : String)
    (p : CreateCheckoutParams) :
    (p.meta.ucp.profile.length = 0 →
      createCheckoutTool s id t p = (.invalidInput, 0, s)) ∧
    (∀ q q' : String, 1 ≤ q.length → 1 ≤ q'.length →
      createCheckoutTool s id t { p with meta := { ucp := { profile := q } } } =
        createCheckoutTool s id t { p with meta := { ucp := { profile := q' } } }) := by
  constructor
  · intro h0
    have hnv : ¬ p.valid := by
      intro hv
      have h1 := hv.1
      unfold UcpMeta.valid at h1
      omega
    simp [createCheckoutTool, hnv]
  · intro q q' hq hq'
    by_cases hrest : 1 ≤ p.line_items.length ∧ ∀ li ∈ p.line_items, li.valid
    · have hv1 : CreateCheckoutParams.valid { p with meta := { ucp := { profile := q } } } :=
        ⟨hq, hrest.1, hrest.2⟩
      have hv2 : CreateCheckoutParams.valid { p with meta := { ucp := { profile := q' } } } :=
        ⟨hq', hrest.1, hrest.2⟩
      simp [createCheckoutTool, hv1, hv2]
    · have hn1 : ¬ CreateCheckoutParams.valid { p with meta := { ucp := { profile := q } } } :=
        fun hv => hrest ⟨hv.2.1, hv.2.2⟩
      have hn2 : ¬ CreateCheckoutParams.valid { p with meta := { ucp := { profile := q' } } } :=
        fun hv => hrest ⟨hv.2.1, hv.2.2⟩
      simp [createCheckoutTool, hn1, hn2]

theorem profile_check_is_nonempty_only_witness :
    createCheckoutTool StoreState.empty "co_1" "t0"
      { zeroQuantityCreate with meta := { ucp := { profile := "" } } } =
      (.invalidInput, 0, StoreState.empty) ∧
    createCheckoutTool StoreState.empty "co_1" "t0"
      { zeroQuantityCreate with meta := { ucp := { profile := "bogus.profile.v999" } } } =
      createCheckoutTool StoreState.empty "co_1" "t0"
      { zeroQuantityCreate with meta := { ucp := { profile := "ucp.checkout.v1" } } } := by
  have h := profile_check_is_nonempty_only StoreState.empty "co_1" "t0"
    { zeroQuantityCreate with meta := { ucp := { profile := "" } } }
  refine ⟨h.1 (by decide), ?_⟩
  have h2 := h.2 "bogus.profile.v999" "ucp.checkout.v1" (by decide) (by decide)
  exact h2

/-- C8: the binding-selecting routes fall back to the direct Resource
API on any MCP failure.  When the MCP attempt throws (modelled as
`Except.error e`, covering unreachable gateway, handshake failure, tool
error or malformed response), the create route still answers 201 with
the direct `createCheckout` result — a `CREATED` checkout — and the
complete route answers 200 with a checkout whenever the direct
`completeCheckout` succeeds (the id is present). -/
theorem client_falls_back_on_mcp_failure (s s2 : StoreState) (id cid t t2 e e2 : String)
    (L : List CartLine) (hL : 1 ≤ L.length) :
    (postCheckoutViaMcp s id t (.error e) (some L) =
      (⟨201, .checkout (createCheckout s id t L).1⟩, (createCheckout s id t L).2) ∧
     (createCheckout s id t L).1.status = .CREATED) ∧
    (∀ c, s2.lookup cid = some c →
      ∃ r, postCompleteViaMcp s2 cid t2 (.error e2) =
        (⟨200, .checkout r⟩, (completeCheckout s2 cid t2).2)) := by
  refine ⟨⟨?_, rfl⟩, ?_⟩
  · have hz : ¬ L.length = 0 := by omega
    simp [postCheckoutViaMcp, hz]
  · intro c hc
    by_cases hs : c.status = CheckoutStatus.CREATED
    · exact ⟨{ c with status := .COMPLETED, updatedAt := t2 },
        by simp [postCompleteViaMcp, completeCheckout, hc, hs]⟩
    · exact ⟨c, by simp [postCompleteViaMcp, completeCheckout, hc, hs]⟩

theorem client_falls_back_on_mcp_failure_witness :
    1 ≤ ([⟨"p1", 2⟩] : List CartLine).length ∧
    (postCheckoutViaMcp StoreState.empty "co_1" "t0" (.error "fetch failed")
        (some [⟨"p1", 2⟩])).1.status = 201 ∧
    createdStore.lookup "co_1" = some ⟨"co_1", .CREATED, [⟨"p1", 2⟩], "t0", "t0"⟩ ∧
    (∃ r, postCompleteViaMcp createdStore "co_1" "t2" (.error "fetch failed") =
      (⟨200, .checkout r⟩, (completeCheckout createdStore "co_1" "t2").2)) := by
  have h := client_falls_back_on_mcp_failure StoreState.empty createdStore "co_1" "co_1"
    "t0" "t2" "fetch failed" "fetch failed" [⟨"p1", 2⟩] (by decide)
  refine ⟨by decide, ?_, by decide,
    h.2 ⟨"co_1", .CREATED, [⟨"p1", 2⟩], "t0", "t0"⟩ (by decide)⟩
  rw [h.1.1]

/-- Round-trip of the line translations: the client turns cart lines
into wire `line_items` and the gateway turns them back; every
`(productId, quantity)` pair survives in order. -/
theorem toLines_clientLineItems (L : List CartLine) :
    toLines (clientLineItems L) = L := by
  induction L with
  | nil => rfl
  | cons l ls ih =>
    show CartLine.mk l.productId l.quantity :: toLines (clientLineItems ls) = l :: ls
    rw [ih]

/-- C3: with the same valid line list L, the checkout created through the
full tool-invocation path (client translation, gateway validation and
translation, Resource API create) and a checkout created directly at the
Resource API are structurally equal except for id and timestamps: the
translation round-trips L exactly, both carry status `CREATED` and the
very same lines. -/
theorem mcp_and_direct_create_agree (s1 s2 : StoreState) (id1 t1 id2 t2 : String)
    (L : List CartLine) (hne : 1 ≤ L.length)
    (hL : ∀ l ∈ L, 1 ≤ l.productId.length ∧ l.quantity.isInt = true ∧ 0 < l.quantity) :
    toLines (clientLineItems L) = L ∧
    ∃ c1, createCheckoutViaMcpPath s1 id1 t1 L = (.ok c1, 1, s1.set id1 c1) ∧
      c1.status = (createCheckout s2 id2 t2 L).1.status ∧
      c1.lines = (createCheckout s2 id2 t2 L).1.lines ∧
      c1.lines = L ∧
      c1.id = id1 ∧ c1.createdAt = t1 ∧ c1.updatedAt = t1 := by
  have hrt := toLines_clientLineItems L
  have hvalid : CreateCheckoutParams.valid
      { meta := { ucp := { profile := UCP_PROFILE } }
        idempotency_key := none
        currency := none
        line_items := clientLineItems L } := by
    have hmeta : UcpMeta.valid { ucp := { profile := UCP_PROFILE } } := by decide
    refine ⟨hmeta, ?_, ?_⟩
    · simpa [clientLineItems] using hne
    · intro li hli
      simp only [clientLineItems, List.mem_map] at hli
      obtain ⟨l, hl, rfl⟩ := hli
      obtain ⟨h1, h2, h3⟩ := hL l hl
      exact ⟨h1, h2, h3⟩
  have hz : ¬ (toLines (clientLineItems L)).length = 0 := by
    rw [hrt]
    omega
  refine ⟨hrt, ⟨id1, .CREATED, toLines (clientLineItems L), t1, t1⟩, ?_, rfl, ?_, ?_, rfl, rfl, rfl⟩
  · simp [createCheckoutViaMcpPath, createCheckoutTool, hvalid, postCheckout, hz, createCheckout]
  · simpa using hrt
  · simpa using hrt

theorem mcp_and_direct_create_agree_witness :
    (1 ≤ ([⟨"p1", 2⟩] : List CartLine).length ∧
      ∀ l ∈ ([⟨"p1", 2⟩] : List CartLine),
        1 ≤ l.productId.length ∧ l.quantity.isInt = true ∧ 0 < l.quantity) ∧
    toLines (clientLineItems [⟨"p1", 2⟩]) = [⟨"p1", 2⟩] ∧
    ∃ c1, createCheckoutViaMcpPath StoreState.empty "co_1" "t0" [⟨"p1", 2⟩] =
        (.ok c1, 1, StoreState.empty.set "co_1" c1) ∧
      c1.status = (createCheckout StoreState.empty "co_9" "t9" [⟨"p1", 2⟩]).1.status ∧
      c1.lines = [⟨"p1", 2⟩] := by
  have h := mcp_and_direct_create_agree StoreState.empty StoreState.empty "co_1" "t0"
    "co_9" "t9" [⟨"p1", 2⟩] (by decide) (by decide)
  obtain ⟨hrt, c1, heq, hst, hlns, hL, _⟩ := h
  exact ⟨⟨by decide, by decide⟩, hrt, c1, heq, hst, hL⟩

end UCP
